import Mathlib

/-!
Shallow embedding of `src/watcher/watcher.py` (HNG stage-3 alert watcher).

Modelling conventions:
* wall-clock instants are rationals (seconds); the code compares
  `(datetime.now() - last).total_seconds() < ALERT_COOLDOWN_SEC`, which we
  model as `now - last < cooldownSec`;
* the Slack transport is a parameter of each dispatch: `TransportResult.ok c`
  models `requests.post` returning a response with status code `c`, and
  `TransportResult.exc` models the call raising (which the code catches);
* Python `None` returned by `send_slack_alert` is modelled by the `retVal`
  field of `DispatchResult` (`Option Bool`, `none` = Python `None`);
* error rates are rationals (`(error_count / len) * 100`);
* `int(x)` on a field value is modelled by `pyInt?` on its string form
  (optional surrounding whitespace, optional sign, decimal digits — `none`
  models a raised `ValueError`/`TypeError`); `str.strip()` is `pyStrip` and
  `str.split(',')` is `splitComma`, both structurally recursive over the
  character list.
-/

namespace Watcher

/-- The four alert kinds the watcher passes as `alert_type`. -/
inductive AlertType
  | failover
  | recovery
  | error_rate
  | info
  deriving DecidableEq, Repr

/-- The configuration read at startup (lines 16-24 of the source).
`webhookSet` models whether `SLACK_WEBHOOK_URL` is non-empty. -/
structure Config where
  errorRateThreshold : ℚ
  windowSize : Nat
  cooldownSec : Int
  maintenanceMode : Bool
  webhookSet : Bool
  deriving Repr

/-- `EXPECTED_PRIMARY_POOL = 'blue'` (line 23). -/
def EXPECTED_PRIMARY_POOL : String := "blue"

/-- `EXPECTED_BACKUP_POOL = 'green'` (line 24). -/
def EXPECTED_BACKUP_POOL : String := "green"

/-- The `last_alert_times` dict: last successful send instant per kind.
The source initialises three keys to `None` and creates `info` lazily;
`dict.get` returns `None` for both a `None` value and a missing key, so all
four start as `none` here. -/
structure CooldownState where
  failover : Option ℚ
  recovery : Option ℚ
  error_rate : Option ℚ
  info : Option ℚ
  deriving DecidableEq, Repr

/-- `last_alert_times.get(alert_type)`. -/
def getLast (s : CooldownState) : AlertType → Option ℚ
  | .failover => s.failover
  | .recovery => s.recovery
  | .error_rate => s.error_rate
  | .info => s.info

/-- `last_alert_times[alert_type] = now`. -/
def setLast (s : CooldownState) (k : AlertType) (t : ℚ) : CooldownState :=
  match k with
  | .failover => { s with failover := some t }
  | .recovery => { s with recovery := some t }
  | .error_rate => { s with error_rate := some t }
  | .info => { s with info := some t }

/-- Outcome of invoking the Slack transport once. -/
inductive TransportResult
  | ok (statusCode : Int)
  | exc
  deriving DecidableEq, Repr

/-- What a single `send_slack_alert` call did. -/
inductive DispatchOutcome
  | suppressedMaintenance
  | noWebhook
  | suppressedCooldown
  | sentOk
  | sentFail
  | sentExc
  deriving DecidableEq, Repr

/-- Result of one `send_slack_alert` call: the new `last_alert_times`,
what happened, and the Python return value (`none` = `None`). -/
structure DispatchResult where
  state : CooldownState
  outcome : DispatchOutcome
  retVal : Option Bool
  deriving DecidableEq, Repr

/-- The `try:` block of `send_slack_alert` (lines 60-74): invoke the
transport; on HTTP 200 record `now` under the alert kind, on any other
status or on an exception leave state untouched. -/
def attemptTransport (s : CooldownState) (alert_type : AlertType) (now : ℚ) :
    TransportResult → DispatchResult
  | .ok statusCode =>
      if statusCode = 200 then
        { state := setLast s alert_type now, outcome := .sentOk, retVal := none }
      else
        { state := s, outcome := .sentFail, retVal := none }
  | .exc => { state := s, outcome := .sentExc, retVal := none }

/-- `send_slack_alert(message, alert_type)` (lines 35-74): maintenance-mode
check, webhook-configured check, cooldown check, then the transport attempt.
Every `return` in the source is a bare `return`, hence `retVal := none` on
every path. -/
def send_slack_alert (cfg : Config) (s : CooldownState) (message : String)
    (alert_type : AlertType) (now : ℚ) (transport : TransportResult) :
    DispatchResult :=
  if cfg.maintenanceMode then
    { state := s, outcome := .suppressedMaintenance, retVal := none }
  else if cfg.webhookSet = false then
    { state := s, outcome := .noWebhook, retVal := none }
  else
    match getLast s alert_type with
    | some last =>
        if now - last < (cfg.cooldownSec : ℚ) then
          { state := s, outcome := .suppressedCooldown, retVal := none }
        else
          attemptTransport s alert_type now transport
    | none => attemptTransport s alert_type now transport

/-- One element of `request_window` (the dict appended at lines 130-135). -/
structure WinEntry where
  pool : String
  status : String
  is_error : Bool
  timestamp : String
  deriving DecidableEq, Repr

/-- `calculate_error_rate` (lines 76-81): `0.0` on an empty window,
otherwise `(error_count / len(request_window)) * 100`. -/
def calculate_error_rate (request_window : List WinEntry) : ℚ :=
  if request_window.length = 0 then 0
  else
    let error_count : ℕ := (request_window.filter (fun r => r.is_error)).length
    ((error_count : ℚ) / (request_window.length : ℚ)) * 100

/-- ASCII whitespace, for the `strip()` model. -/
def isSpaceChar (c : Char) : Bool :=
  c = ' ' || c = '\t' || c = '\n' || c = '\r'

/-- A decimal digit. -/
def isDigitChar (c : Char) : Bool :=
  decide ('0' ≤ c) && decide (c ≤ '9')

/-- The numeric value of a digit string (most significant first). -/
def digitsToNat (cs : List Char) : Nat :=
  cs.foldl (fun n c => 10 * n + (c.toNat - 48)) 0

/-- `str.strip()`: drop whitespace from both ends. -/
def pyStrip (s : String) : String :=
  ⟨((s.data.dropWhile isSpaceChar).reverse.dropWhile isSpaceChar).reverse⟩

/-- Python `int(x)` on the string form of a value: optional surrounding
whitespace, an optional sign, then one or more decimal digits; `none`
models the `ValueError`/`TypeError` path. -/
def pyInt? (s : String) : Option Int :=
  match (pyStrip s).data with
  | [] => none
  | '-' :: ds =>
      if !ds.isEmpty && ds.all isDigitChar then some (-(digitsToNat ds : Int))
      else none
  | '+' :: ds =>
      if !ds.isEmpty && ds.all isDigitChar then some (digitsToNat ds : Int)
      else none
  | ds =>
      if ds.all isDigitChar then some (digitsToNat ds : Int) else none

/-- `str.split(',')` on the character list: boundaries at every comma,
keeping empty pieces (so `splitComma "" = [""]`, as in Python). -/
def splitCommaAux : List Char → List Char → List (List Char)
  | [], acc => [acc.reverse]
  | c :: cs, acc =>
      if c = ',' then acc.reverse :: splitCommaAux cs []
      else splitCommaAux cs (c :: acc)

/-- `str.split(',')`. -/
def splitComma (s : String) : List String :=
  (splitCommaAux s.data []).map (fun cs => ⟨cs⟩)

/-- `is_error_status` (lines 83-89): `500 <= int(status) < 600`, and `False`
when `int(...)` raises. -/
def is_error_status (status : String) : Bool :=
  match pyInt? status with
  | some status_int => decide (500 ≤ status_int ∧ status_int < 600)
  | none => false

/-- A decoded log record (the JSON object handed to `process_log_entry`).
Field values are carried as strings; `none` means the key is absent. -/
structure RawEntry where
  pool : Option String
  release : Option String
  status : Option String
  upstream_status : Option String
  timestamp : Option String
  upstream_addr : Option String
  deriving DecidableEq, Repr

/-- `entry.get('pool', '')`. -/
def poolOf (e : RawEntry) : String := e.pool.getD ""

/-- `entry.get('status', 0)`: a missing status field defaults to `0`. -/
def statusOf (e : RawEntry) : String := e.status.getD "0"

/-- `entry.get('upstream_status', '')`. -/
def upstreamStatusOf (e : RawEntry) : String := e.upstream_status.getD ""

/-- `entry.get('timestamp', ...)`; the fallback (the current wall-clock
string) never influences control flow, modelled as `""`. -/
def timestampOf (e : RawEntry) : String := e.timestamp.getD ""

/-- Line 114: `not pool or pool == '-' or pool == 'null' or pool == ''`
(for a string, `not pool` means `pool == ''`). -/
def invalidPool (pool : String) : Bool :=
  pool == "" || pool == "-" || pool == "null" || pool == ""

/-- Lines 119-124: the error flag of a retained record: the primary status,
OR-ed with each comma-separated, stripped entry of `upstream_status`, the
latter loop guarded by `if upstream_status:` (non-empty). -/
def entryIsError (e : RawEntry) : Bool :=
  let is_error := is_error_status (statusOf e)
  let upstream_status := upstreamStatusOf e
  if upstream_status != "" then
    is_error || (splitComma upstream_status).any
      (fun us => is_error_status (pyStrip us))
  else
    is_error

/-- The window entry built from a retained record (lines 130-135: the dict
of `pool`, `status`, `is_error`, `timestamp` appended to the window). -/
def newWinEntry (e : RawEntry) : WinEntry :=
  { pool := poolOf e, status := statusOf e, is_error := entryIsError e,
    timestamp := timestampOf e }

/-- `collections.deque(maxlen).append`: append on the right, dropping from
the left whatever exceeds `maxlen`. -/
def dequeAppend {α : Type} (maxlen : Nat) (w : List α) (e : α) : List α :=
  let w2 := w ++ [e]
  w2.drop (w2.length - maxlen)

/-- A whole sequence of `deque.append` calls. -/
def appendAll {α : Type} (maxlen : Nat) (w : List α) (es : List α) : List α :=
  es.foldl (fun acc e => dequeAppend maxlen acc e) w

/-- The watcher's mutable state (lines 26-33). -/
structure WatcherState where
  last_seen_pool : Option String
  request_window : List WinEntry
  last_alert_times : CooldownState
  deriving DecidableEq, Repr

/-- The state at process start. -/
def initialState : WatcherState :=
  { last_seen_pool := none
    request_window := []
    last_alert_times :=
      { failover := none, recovery := none, error_rate := none, info := none } }

/-- Result of `process_log_entry` on one record: the new state and the
`send_slack_alert` calls it made, in order, with their outcomes. -/
structure StepResult where
  state : WatcherState
  attempts : List (AlertType × DispatchOutcome)
  deriving DecidableEq, Repr

/-- The FAILOVER DETECTION block (lines 140-194): guarded by
`if last_seen_pool and last_seen_pool != pool:` (Python truthiness: `None`
and `''` are falsy), then the blue-to-green / green-to-blue two-way match. -/
def failoverDetection (cfg : Config) (last_seen_pool : Option String)
    (pool : String) (cd : CooldownState) (now : ℚ)
    (transport : TransportResult) :
    CooldownState × List (AlertType × DispatchOutcome) :=
  match last_seen_pool with
  | none => (cd, [])
  | some prev =>
      if prev != "" && prev != pool then
        if prev == EXPECTED_PRIMARY_POOL && pool == EXPECTED_BACKUP_POOL then
          let r := send_slack_alert cfg cd "FAILOVER DETECTED" .failover now transport
          (r.state, [(.failover, r.outcome)])
        else if prev == EXPECTED_BACKUP_POOL && pool == EXPECTED_PRIMARY_POOL then
          let r := send_slack_alert cfg cd "RECOVERY DETECTED" .recovery now transport
          (r.state, [(.recovery, r.outcome)])
        else (cd, [])
      else (cd, [])

/-- The ERROR RATE DETECTION block (lines 199-230): only when
`len(request_window) >= WINDOW_SIZE`, and only when the rate is strictly
above the threshold. -/
def errorRateDetection (cfg : Config) (window : List WinEntry)
    (cd : CooldownState) (now : ℚ) (transport : TransportResult) :
    CooldownState × List (AlertType × DispatchOutcome) :=
  if cfg.windowSize ≤ window.length then
    let error_rate := calculate_error_rate window
    if cfg.errorRateThreshold < error_rate then
      let r := send_slack_alert cfg cd "HIGH ERROR RATE DETECTED" .error_rate now transport
      (r.state, [(.error_rate, r.outcome)])
    else (cd, [])
  else (cd, [])

/-- `process_log_entry` (lines 98-230): extract fields, discard on an
invalid pool, classify the error flag, append to the window, run failover
detection, update `last_seen_pool`, run the error-rate check. `now` is the
wall-clock instant of this event; `transport` is what the Slack transport
would do if invoked during this event. -/
def process_log_entry (cfg : Config) (st : WatcherState) (entry : RawEntry)
    (now : ℚ) (transport : TransportResult) : StepResult :=
  let pool := poolOf entry
  if invalidPool pool then { state := st, attempts := [] }
  else
    let window := dequeAppend cfg.windowSize st.request_window (newWinEntry entry)
    let fd := failoverDetection cfg st.last_seen_pool pool st.last_alert_times now transport
    let er := errorRateDetection cfg window fd.1 now transport
    { state :=
        { last_seen_pool := some pool, request_window := window,
          last_alert_times := er.1 },
      attempts := fd.2 ++ er.2 }

/-- Run `process_log_entry` over a list of (record, instant, transport)
triples, collecting all dispatch attempts in order. -/
def processAll (cfg : Config) :
    WatcherState → List (RawEntry × ℚ × TransportResult) →
    WatcherState × List (AlertType × DispatchOutcome)
  | st, [] => (st, [])
  | st, (e, now, tr) :: rest =>
      let r := process_log_entry cfg st e now tr
      let tailRes := processAll cfg r.state rest
      (tailRes.1, r.attempts ++ tailRes.2)

/-- A sequence of `send_slack_alert` calls of one kind at given instants,
with a transport that always answers HTTP 200; returns the final cooldown
state and how many calls actually delivered. -/
def dispatchSeq (cfg : Config) (msg : String) (k : AlertType) :
    CooldownState → List ℚ → CooldownState × Nat
  | s, [] => (s, 0)
  | s, t :: ts =>
      let r := send_slack_alert cfg s msg k t (.ok 200)
      let rest := dispatchSeq cfg msg k r.state ts
      (rest.1, (if r.outcome = .sentOk then 1 else 0) + rest.2)

/-- The pool-transition signals among a list of attempts. -/
def poolSignals (atts : List (AlertType × DispatchOutcome)) : List AlertType :=
  (atts.map Prod.fst).filter (fun k => k == .failover || k == .recovery)

/-- Whether an outcome means the transport was actually invoked. -/
def sentOutcome (o : DispatchOutcome) : Bool :=
  o == .sentOk || o == .sentFail || o == .sentExc

/-- How many of the attempts were delivered (HTTP 200). -/
def deliveredCount (atts : List (AlertType × DispatchOutcome)) : Nat :=
  (atts.filter (fun a => a.2 == .sentOk)).length

/-- The kinds of all `send_slack_alert` calls of a step, in order. -/
def attemptedKinds (atts : List (AlertType × DispatchOutcome)) : List AlertType :=
  atts.map Prod.fst

/-- A record carrying only a pool name, as in the spec scenarios. -/
def entryPool (p : String) : RawEntry :=
  { pool := some p, release := none, status := none, upstream_status := none,
    timestamp := none, upstream_addr := none }

/-- The default configuration of the source (threshold 2%, window 200,
cooldown 300 s, maintenance off) with a configured webhook. -/
def cfg0 : Config :=
  { errorRateThreshold := 2, windowSize := 200, cooldownSec := 300,
    maintenanceMode := false, webhookSet := true }

/-- `cfg0` with `MAINTENANCE_MODE=true`. -/
def cfgMaint : Config := { cfg0 with maintenanceMode := true }

/-- `cfg0` with `WINDOW_SIZE=1`, to exercise a full window quickly. -/
def cfgSmall : Config := { cfg0 with windowSize := 1 }

/-- A state whose last observed pool is `blue`. -/
def stBlue : WatcherState := { initialState with last_seen_pool := some "blue" }

/-- A non-error window entry. -/
def weOk : WinEntry :=
  { pool := "blue", status := "200", is_error := false, timestamp := "t" }

/-- An error window entry. -/
def weErr : WinEntry :=
  { pool := "blue", status := "503", is_error := true, timestamp := "t" }

/-- A record whose primary status is 503. -/
def entry503 : RawEntry :=
  { pool := some "blue", release := none, status := some "503",
    upstream_status := none, timestamp := none, upstream_addr := none }

/-- A record with the `-` missing-pool sentinel. -/
def entryDashPool : RawEntry :=
  { pool := some "-", release := none, status := some "200",
    upstream_status := none, timestamp := none, upstream_addr := none }

/-- A record with no status field and an upstream chain ending in 502. -/
def entryUpstream : RawEntry :=
  { pool := some "blue", release := none, status := none,
    upstream_status := some "200, 502", timestamp := none,
    upstream_addr := none }

/-! ## Basic lemmas about the cooldown map and the dispatcher -/

theorem getLast_setLast_same (s : CooldownState) (k : AlertType) (t : ℚ) :
    getLast (setLast s k t) k = some t := by
  cases k <;> rfl

theorem getLast_setLast_other (s : CooldownState) (k k2 : AlertType) (t : ℚ)
    (h : k2 ≠ k) : getLast (setLast s k t) k2 = getLast s k2 := by
  cases k <;> cases k2 <;> simp_all [getLast, setLast]

theorem attemptTransport_retVal (s : CooldownState) (k : AlertType) (now : ℚ)
    (tr : TransportResult) : (attemptTransport s k now tr).retVal = none := by
  cases tr with
  | ok c => by_cases h : c = 200 <;> simp [attemptTransport, h]
  | exc => rfl

theorem send_retVal (cfg : Config) (s : CooldownState) (msg : String)
    (k : AlertType) (now : ℚ) (tr : TransportResult) :
    (send_slack_alert cfg s msg k now tr).retVal = none := by
  unfold send_slack_alert
  repeat' first
    | rfl
    | apply attemptTransport_retVal
    | split

theorem send_sentOk_iff (cfg : Config) (s : CooldownState) (msg : String)
    (k : AlertType) (now : ℚ) (tr : TransportResult) :
    (send_slack_alert cfg s msg k now tr).outcome = DispatchOutcome.sentOk ↔
      (cfg.maintenanceMode = false ∧ cfg.webhookSet = true ∧
        (∀ last, getLast s k = some last → (cfg.cooldownSec : ℚ) ≤ now - last) ∧
        tr = TransportResult.ok 200) := by
  unfold send_slack_alert
  by_cases hm : cfg.maintenanceMode
  · simp [hm]
  · by_cases hw : cfg.webhookSet
    · cases hg : getLast s k with
      | none =>
          cases tr with
          | ok c =>
              by_cases h200 : c = 200 <;>
                simp [hm, hw, hg, attemptTransport, h200]
          | exc => simp [hm, hw, hg, attemptTransport]
      | some l =>
          by_cases hcool : now - l < (cfg.cooldownSec : ℚ)
          · simp [hm, hw, hg, hcool, not_le.mpr hcool]
          · cases tr with
            | ok c =>
                by_cases h200 : c = 200 <;>
                  simp [hm, hw, hg, hcool, attemptTransport, h200, not_lt.mp hcool]
            | exc => simp [hm, hw, hg, hcool, attemptTransport]
    · simp_all

theorem send_sentOutcome_iff (cfg : Config) (s : CooldownState) (msg : String)
    (k : AlertType) (now : ℚ) (tr : TransportResult) :
    sentOutcome (send_slack_alert cfg s msg k now tr).outcome = true ↔
      (cfg.maintenanceMode = false ∧ cfg.webhookSet = true ∧
        (∀ last, getLast s k = some last → (cfg.cooldownSec : ℚ) ≤ now - last)) := by
  unfold send_slack_alert
  by_cases hm : cfg.maintenanceMode
  · simp [hm, sentOutcome]
  · by_cases hw : cfg.webhookSet
    · cases hg : getLast s k with
      | none =>
          cases tr with
          | ok c =>
              by_cases h200 : c = 200 <;>
                simp [hm, hw, hg, attemptTransport, h200, sentOutcome]
          | exc => simp [hm, hw, hg, attemptTransport, sentOutcome]
      | some l =>
          by_cases hcool : now - l < (cfg.cooldownSec : ℚ)
          · simp [hm, hw, hg, hcool, not_le.mpr hcool, sentOutcome]
          · cases tr with
            | ok c =>
                by_cases h200 : c = 200 <;>
                  simp [hm, hw, hg, hcool, attemptTransport, h200,
                    not_lt.mp hcool, sentOutcome]
            | exc =>
                simp [hm, hw, hg, hcool, attemptTransport, sentOutcome,
                  not_lt.mp hcool]
    · simp_all [sentOutcome]

theorem send_state_of_sentOk (cfg : Config) (s : CooldownState) (msg : String)
    (k : AlertType) (now : ℚ) (tr : TransportResult)
    (h : (send_slack_alert cfg s msg k now tr).outcome = DispatchOutcome.sentOk) :
    (send_slack_alert cfg s msg k now tr).state = setLast s k now := by
  rcases (send_sentOk_iff cfg s msg k now tr).mp h with ⟨hm, hw, hcool, htr⟩
  subst htr
  unfold send_slack_alert attemptTransport
  cases hg : getLast s k with
  | none => simp [hm, hw, hg]
  | some l => simp [hm, hw, hg, not_lt.mpr (hcool l hg)]

theorem send_state_of_not_sentOk (cfg : Config) (s : CooldownState) (msg : String)
    (k : AlertType) (now : ℚ) (tr : TransportResult)
    (h : (send_slack_alert cfg s msg k now tr).outcome ≠ DispatchOutcome.sentOk) :
    (send_slack_alert cfg s msg k now tr).state = s := by
  revert h
  unfold send_slack_alert attemptTransport
  by_cases hm : cfg.maintenanceMode
  · simp [hm]
  · by_cases hw : cfg.webhookSet
    · cases hg : getLast s k with
      | none =>
          cases tr with
          | ok c => by_cases h200 : c = 200 <;> simp [hm, hw, hg, h200]
          | exc => simp [hm, hw, hg]
      | some l =>
          by_cases hcool : now - l < (cfg.cooldownSec : ℚ)
          · simp [hm, hw, hg, hcool]
          · cases tr with
            | ok c => by_cases h200 : c = 200 <;> simp [hm, hw, hg, hcool, h200]
            | exc => simp [hm, hw, hg, hcool]
    · simp_all

theorem send_getLast (cfg : Config) (s : CooldownState) (msg : String)
    (k : AlertType) (now : ℚ) (tr : TransportResult) (k2 : AlertType) :
    getLast (send_slack_alert cfg s msg k now tr).state k2 =
      if k2 = k ∧ (send_slack_alert cfg s msg k now tr).outcome = DispatchOutcome.sentOk
      then some now else getLast s k2 := by
  by_cases hok : (send_slack_alert cfg s msg k now tr).outcome = DispatchOutcome.sentOk
  · rw [send_state_of_sentOk cfg s msg k now tr hok]
    by_cases hk : k2 = k
    · subst hk; simp [hok, getLast_setLast_same]
    · simp [hk, getLast_setLast_other s k k2 now hk]
  · rw [send_state_of_not_sentOk cfg s msg k now tr hok]
    simp [hok]

theorem send_outcome_congr (cfg : Config) (s s2 : CooldownState) (msg : String)
    (k : AlertType) (now : ℚ) (tr : TransportResult)
    (h : getLast s k = getLast s2 k) :
    (send_slack_alert cfg s msg k now tr).outcome =
      (send_slack_alert cfg s2 msg k now tr).outcome := by
  unfold send_slack_alert
  rw [← h]
  by_cases hm : cfg.maintenanceMode
  · simp [hm]
  · by_cases hw : cfg.webhookSet
    · cases hg : getLast s k with
      | none =>
          cases tr with
          | ok c => by_cases h200 : c = 200 <;> simp [hm, hw, hg, attemptTransport, h200]
          | exc => simp [hm, hw, hg, attemptTransport]
      | some l =>
          by_cases hcool : now - l < (cfg.cooldownSec : ℚ)
          · simp [hm, hw, hg, hcool]
          · cases tr with
            | ok c =>
                by_cases h200 : c = 200 <;>
                  simp [hm, hw, hg, hcool, attemptTransport, h200]
            | exc => simp [hm, hw, hg, hcool, attemptTransport]
    · simp_all

/-! ## Lemmas about the deque-backed sliding window -/

theorem dequeAppend_eq_drop {α : Type} (N : Nat) (w : List α) (e : α) :
    dequeAppend N w e = (w ++ [e]).drop (w.length + 1 - N) := by
  simp [dequeAppend]

theorem dequeAppend_length {α : Type} (N : Nat) (w : List α) (e : α) :
    (dequeAppend N w e).length = min (w.length + 1) N := by
  simp [dequeAppend]
  omega

theorem appendAll_cons {α : Type} (N : Nat) (w : List α) (e : α) (es : List α) :
    appendAll N w (e :: es) = appendAll N (dequeAppend N w e) es := rfl

theorem appendAll_eq_drop {α : Type} (N : Nat) :
    ∀ (es w : List α), w.length ≤ N →
      appendAll N w es = (w ++ es).drop (w.length + es.length - N)
  | [], w, h => by
      simp [appendAll, Nat.sub_eq_zero_of_le h]
  | e :: es, w, h => by
      have h1 : (dequeAppend N w e).length ≤ N := by
        rw [dequeAppend_length]; omega
      have hd : w.length + 1 - N ≤ (w ++ [e]).length := by
        simp
      rw [appendAll_cons, appendAll_eq_drop N es (dequeAppend N w e) h1]
      simp only [dequeAppend_length, dequeAppend_eq_drop]
      rw [← List.drop_append_of_le_length hd, List.drop_drop]
      have hassoc : (w ++ [e]) ++ es = w ++ e :: es := by simp
      rw [hassoc]
      congr 1
      simp only [List.length_drop, List.length_append, List.length_cons,
        List.length_nil]
      omega

/-- A run of same-kind dispatches whose instants all lie strictly within
the cooldown window of the recorded send delivers nothing and leaves the
cooldown state unchanged. -/
theorem dispatchSeq_suppressed (cfg : Config) (msg : String) (k : AlertType)
    (t : ℚ) :
    ∀ (ts : List ℚ) (s : CooldownState), getLast s k = some t →
      (∀ u ∈ ts, u - t < (cfg.cooldownSec : ℚ)) →
      dispatchSeq cfg msg k s ts = (s, 0)
  | [], _, _, _ => rfl
  | u :: us, s, hg, hlt => by
      have hnot :
          ¬ sentOutcome (send_slack_alert cfg s msg k u (TransportResult.ok 200)).outcome
            = true := by
        intro hsent
        rcases (send_sentOutcome_iff cfg s msg k u (TransportResult.ok 200)).mp hsent
          with ⟨_, _, hcd⟩
        exact absurd (hcd t hg) (not_le.mpr (hlt u (by simp)))
      have hok :
          (send_slack_alert cfg s msg k u (TransportResult.ok 200)).outcome
            ≠ DispatchOutcome.sentOk := by
        intro h
        exact hnot (by rw [h]; rfl)
      have hst := send_state_of_not_sentOk cfg s msg k u (TransportResult.ok 200) hok
      have hrec := dispatchSeq_suppressed cfg msg k t us s hg
        (fun v hv => hlt v (List.mem_cons_of_mem _ hv))
      simp [dispatchSeq, hst, hok, hrec]

/-- Under maintenance mode every dispatch short-circuits to a suppressed
result before any other check. -/
theorem send_maint (cfg : Config) (s : CooldownState) (msg : String)
    (k : AlertType) (now : ℚ) (tr : TransportResult)
    (hm : cfg.maintenanceMode = true) :
    send_slack_alert cfg s msg k now tr =
      { state := s, outcome := DispatchOutcome.suppressedMaintenance,
        retVal := none } := by
  unfold send_slack_alert
  simp [hm]

/-! ## Structural lemmas about `process_log_entry` -/

theorem process_log_entry_invalid (cfg : Config) (st : WatcherState)
    (e : RawEntry) (now : ℚ) (tr : TransportResult)
    (hp : invalidPool (poolOf e) = true) :
    process_log_entry cfg st e now tr = { state := st, attempts := [] } := by
  unfold process_log_entry
  simp [hp]

theorem process_log_entry_valid (cfg : Config) (st : WatcherState)
    (e : RawEntry) (now : ℚ) (tr : TransportResult)
    (hp : invalidPool (poolOf e) = false) :
    process_log_entry cfg st e now tr =
      { state :=
          { last_seen_pool := some (poolOf e),
            request_window :=
              dequeAppend cfg.windowSize st.request_window (newWinEntry e),
            last_alert_times :=
              (errorRateDetection cfg
                (dequeAppend cfg.windowSize st.request_window (newWinEntry e))
                (failoverDetection cfg st.last_seen_pool (poolOf e)
                  st.last_alert_times now tr).1 now tr).1 },
        attempts :=
          (failoverDetection cfg st.last_seen_pool (poolOf e)
            st.last_alert_times now tr).2
          ++ (errorRateDetection cfg
                (dequeAppend cfg.windowSize st.request_window (newWinEntry e))
                (failoverDetection cfg st.last_seen_pool (poolOf e)
                  st.last_alert_times now tr).1 now tr).2 } := by
  unfold process_log_entry
  simp [hp]

theorem failoverDetection_cases (cfg : Config) (prevOpt : Option String)
    (pool : String) (cd : CooldownState) (now : ℚ) (tr : TransportResult) :
    failoverDetection cfg prevOpt pool cd now tr = (cd, [])
    ∨ failoverDetection cfg prevOpt pool cd now tr =
        ((send_slack_alert cfg cd "FAILOVER DETECTED" AlertType.failover now tr).state,
         [(AlertType.failover,
           (send_slack_alert cfg cd "FAILOVER DETECTED" AlertType.failover now tr).outcome)])
    ∨ failoverDetection cfg prevOpt pool cd now tr =
        ((send_slack_alert cfg cd "RECOVERY DETECTED" AlertType.recovery now tr).state,
         [(AlertType.recovery,
           (send_slack_alert cfg cd "RECOVERY DETECTED" AlertType.recovery now tr).outcome)]) := by
  cases prevOpt with
  | none => left; rfl
  | some prev =>
      simp only [failoverDetection]
      split
      · split
        · right; left; rfl
        · split
          · right; right; rfl
          · left; rfl
      · left; rfl

theorem failoverDetection_none (cfg : Config) (pool : String)
    (cd : CooldownState) (now : ℚ) (tr : TransportResult) :
    failoverDetection cfg none pool cd now tr = (cd, []) := rfl

theorem failoverDetection_same (cfg : Config) (pool : String)
    (cd : CooldownState) (now : ℚ) (tr : TransportResult) :
    failoverDetection cfg (some pool) pool cd now tr = (cd, []) := by
  simp only [failoverDetection]
  simp

theorem failoverDetection_change (cfg : Config) (prev pool : String)
    (cd : CooldownState) (now : ℚ) (tr : TransportResult)
    (hne : prev ≠ "") (hdiff : prev ≠ pool) :
    failoverDetection cfg (some prev) pool cd now tr =
      if prev = EXPECTED_PRIMARY_POOL ∧ pool = EXPECTED_BACKUP_POOL then
        ((send_slack_alert cfg cd "FAILOVER DETECTED" AlertType.failover now tr).state,
         [(AlertType.failover,
           (send_slack_alert cfg cd "FAILOVER DETECTED" AlertType.failover now tr).outcome)])
      else if prev = EXPECTED_BACKUP_POOL ∧ pool = EXPECTED_PRIMARY_POOL then
        ((send_slack_alert cfg cd "RECOVERY DETECTED" AlertType.recovery now tr).state,
         [(AlertType.recovery,
           (send_slack_alert cfg cd "RECOVERY DETECTED" AlertType.recovery now tr).outcome)])
      else (cd, []) := by
  simp only [failoverDetection]
  rw [if_pos (by simp [hne, hdiff] : (prev != "" && prev != pool) = true)]
  by_cases h1 : prev = EXPECTED_PRIMARY_POOL <;>
    by_cases h2 : pool = EXPECTED_BACKUP_POOL <;>
      by_cases h3 : prev = EXPECTED_BACKUP_POOL <;>
        by_cases h4 : pool = EXPECTED_PRIMARY_POOL <;>
          simp_all [EXPECTED_PRIMARY_POOL, EXPECTED_BACKUP_POOL]

theorem errorRateDetection_spec (cfg : Config) (window : List WinEntry)
    (cd : CooldownState) (now : ℚ) (tr : TransportResult) :
    errorRateDetection cfg window cd now tr =
      if cfg.windowSize ≤ window.length
          ∧ cfg.errorRateThreshold < calculate_error_rate window then
        ((send_slack_alert cfg cd "HIGH ERROR RATE DETECTED"
            AlertType.error_rate now tr).state,
         [(AlertType.error_rate,
           (send_slack_alert cfg cd "HIGH ERROR RATE DETECTED"
             AlertType.error_rate now tr).outcome)])
      else (cd, []) := by
  unfold errorRateDetection
  by_cases h1 : cfg.windowSize ≤ window.length <;>
    by_cases h2 : cfg.errorRateThreshold < calculate_error_rate window <;>
      simp [h1, h2]

theorem poolSignals_append (a b : List (AlertType × DispatchOutcome)) :
    poolSignals (a ++ b) = poolSignals a ++ poolSignals b := by
  simp [poolSignals]

theorem poolSignals_errorRate (cfg : Config) (window : List WinEntry)
    (cd : CooldownState) (now : ℚ) (tr : TransportResult) :
    poolSignals (errorRateDetection cfg window cd now tr).2 = [] := by
  rw [errorRateDetection_spec]
  split
  · rfl
  · rfl

theorem no_errorRate_in_failover (cfg : Config) (prevOpt : Option String)
    (pool : String) (cd : CooldownState) (now : ℚ) (tr : TransportResult) :
    AlertType.error_rate ∉
      attemptedKinds (failoverDetection cfg prevOpt pool cd now tr).2 := by
  rcases failoverDetection_cases cfg prevOpt pool cd now tr with h | h | h <;>
    rw [h] <;> simp [attemptedKinds]

theorem deliveredCount_eq_zero (l : List (AlertType × DispatchOutcome))
    (h : ∀ a ∈ l, a.2 = DispatchOutcome.suppressedMaintenance) :
    deliveredCount l = 0 := by
  unfold deliveredCount
  rw [List.length_eq_zero, List.filter_eq_nil_iff]
  intro a ha
  rw [h a ha]
  simp

/-! ## Classifier lemmas -/

theorem is_error_status_iff (s : String) :
    is_error_status s = true ↔
      ∃ n : ℤ, pyInt? s = some n ∧ 500 ≤ n ∧ n < 600 := by
  unfold is_error_status
  cases h : pyInt? s with
  | none => simp [h]
  | some n => simp [h]

theorem entryIsError_iff (e : RawEntry) :
    entryIsError e = true ↔
      (is_error_status (statusOf e) = true
       ∨ ∃ us ∈ splitComma (upstreamStatusOf e),
           is_error_status (pyStrip us) = true) := by
  unfold entryIsError
  by_cases h : upstreamStatusOf e = ""
  · rw [h]
    simp only [bne_self_eq_false, if_neg (by simp : ¬ (false = true))]
    constructor
    · exact Or.inl
    · rintro (h2 | ⟨us, hus, h2⟩)
      · exact h2
      · have hu : us = "" := by
          have h1 : splitComma "" = [""] := rfl
          rw [h1] at hus
          simpa using hus
        subst hu
        exact absurd h2 (by decide)
  · rw [if_pos (by simpa [bne_iff_ne] using h)]
    simp [List.any_eq_true]

/-! ## Claim theorems: dispatcher -/

/-- C2: cooldown suppression is keyed by alert kind only. A dispatch of a
kind whose recorded last send is strictly within the cooldown window is
suppressed without invoking the transport and leaves the state unchanged;
a first successful send followed by any number of same-kind attempts
within the window delivers exactly one notification (the first); the
message content is irrelevant to the dispatch behaviour; and a dispatch of
one kind neither writes another kind's timestamp nor does its decision
depend on anything but its own kind's timestamp. -/
theorem C2_cooldown_keyed_by_kind :
    (∀ (cfg : Config) (s : CooldownState) (msg : String) (k : AlertType)
        (now last : ℚ) (tr : TransportResult),
      getLast s k = some last → now - last < (cfg.cooldownSec : ℚ) →
      (send_slack_alert cfg s msg k now tr).state = s
      ∧ sentOutcome (send_slack_alert cfg s msg k now tr).outcome = false)
    ∧ (∀ (cfg : Config) (msg : String) (k : AlertType) (s : CooldownState)
        (t : ℚ) (ts : List ℚ),
      cfg.maintenanceMode = false → cfg.webhookSet = true →
      getLast s k = none → (∀ u ∈ ts, u - t < (cfg.cooldownSec : ℚ)) →
      (dispatchSeq cfg msg k s (t :: ts)).2 = 1)
    ∧ (∀ (cfg : Config) (s : CooldownState) (msg msg2 : String) (k : AlertType)
        (now : ℚ) (tr : TransportResult),
      send_slack_alert cfg s msg k now tr = send_slack_alert cfg s msg2 k now tr)
    ∧ (∀ (cfg : Config) (s : CooldownState) (msg : String) (k k2 : AlertType)
        (now : ℚ) (tr : TransportResult), k2 ≠ k →
      getLast (send_slack_alert cfg s msg k now tr).state k2 = getLast s k2)
    ∧ (∀ (cfg : Config) (s s2 : CooldownState) (msg : String) (k : AlertType)
        (now : ℚ) (tr : TransportResult), getLast s k = getLast s2 k →
      (send_slack_alert cfg s msg k now tr).outcome =
        (send_slack_alert cfg s2 msg k now tr).outcome) := by
  refine ⟨?_, ?_, ?_, ?_, ?_⟩
  · intro cfg s msg k now last tr hg hc
    have hnot :
        ¬ sentOutcome (send_slack_alert cfg s msg k now tr).outcome = true := by
      intro hsent
      rcases (send_sentOutcome_iff cfg s msg k now tr).mp hsent with ⟨_, _, hcd⟩
      exact absurd (hcd last hg) (not_le.mpr hc)
    have hok : (send_slack_alert cfg s msg k now tr).outcome
        ≠ DispatchOutcome.sentOk := by
      intro h
      exact hnot (by rw [h]; rfl)
    exact ⟨send_state_of_not_sentOk cfg s msg k now tr hok, by simpa using hnot⟩
  · intro cfg msg k s t ts hm hw hg hts
    have h1 : (send_slack_alert cfg s msg k t (TransportResult.ok 200)).outcome
        = DispatchOutcome.sentOk :=
      (send_sentOk_iff cfg s msg k t (TransportResult.ok 200)).mpr
        ⟨hm, hw, (fun last hl => by rw [hg] at hl; cases hl), rfl⟩
    have hstate := send_state_of_sentOk cfg s msg k t (TransportResult.ok 200) h1
    have hrec := dispatchSeq_suppressed cfg msg k t ts (setLast s k t)
      (getLast_setLast_same s k t) hts
    simp [dispatchSeq, h1, hstate, hrec]
  · intro cfg s msg msg2 k now tr
    rfl
  · intro cfg s msg k k2 now tr hk2
    rw [send_getLast]
    simp [hk2]
  · intro cfg s s2 msg k now tr h
    exact send_outcome_congr cfg s s2 msg k now tr h

/-- C2 witness: with the default configuration, three `error_rate`
dispatches at instants 0, 1, 2 (all within the 300 s cooldown) deliver
exactly one notification. -/
theorem C2_cooldown_keyed_by_kind_witness :
    cfg0.maintenanceMode = false ∧ cfg0.webhookSet = true
    ∧ getLast initialState.last_alert_times AlertType.error_rate = none
    ∧ (∀ u ∈ [(1 : ℚ), 2], u - 0 < (cfg0.cooldownSec : ℚ))
    ∧ (dispatchSeq cfg0 "m" AlertType.error_rate initialState.last_alert_times
        (0 :: [1, 2])).2 = 1 := by
  have hts : ∀ u ∈ [(1 : ℚ), 2], u - 0 < (cfg0.cooldownSec : ℚ) := by
    intro u hu
    rcases List.mem_cons.mp hu with h | h
    · subst h; norm_num [cfg0]
    · rcases List.mem_cons.mp h with h | h
      · subst h; norm_num [cfg0]
      · cases h
  exact ⟨rfl, rfl, rfl, hts,
    C2_cooldown_keyed_by_kind.2.1 cfg0 "m" AlertType.error_rate
      initialState.last_alert_times 0 [1, 2] rfl rfl rfl hts⟩

/-- C3: the cooldown timestamp of a kind becomes the current instant
exactly when this dispatch of that kind reported transport success;
on any non-success the whole state is unchanged, and after a failed or
raising transport a subsequent same-kind dispatch (at any instant, even
one second later) still reaches the transport. -/
theorem C3_cooldown_update_iff_success :
    (∀ (cfg : Config) (s : CooldownState) (msg : String) (k k2 : AlertType)
        (now : ℚ) (tr : TransportResult),
      getLast (send_slack_alert cfg s msg k now tr).state k2 =
        if k2 = k ∧ (send_slack_alert cfg s msg k now tr).outcome
            = DispatchOutcome.sentOk
        then some now else getLast s k2)
    ∧ (∀ (cfg : Config) (s : CooldownState) (msg : String) (k : AlertType)
        (now : ℚ) (tr : TransportResult),
      (send_slack_alert cfg s msg k now tr).outcome ≠ DispatchOutcome.sentOk →
      (send_slack_alert cfg s msg k now tr).state = s)
    ∧ (∀ (cfg : Config) (s : CooldownState) (msg msg2 : String) (k : AlertType)
        (t t2 : ℚ) (tr tr2 : TransportResult),
      cfg.maintenanceMode = false → cfg.webhookSet = true →
      getLast s k = none →
      (tr = TransportResult.exc ∨ ∃ c, tr = TransportResult.ok c ∧ c ≠ 200) →
      sentOutcome (send_slack_alert cfg
          (send_slack_alert cfg s msg k t tr).state msg2 k t2 tr2).outcome
        = true) := by
  refine ⟨?_, ?_, ?_⟩
  · intro cfg s msg k k2 now tr
    exact send_getLast cfg s msg k now tr k2
  · intro cfg s msg k now tr h
    exact send_state_of_not_sentOk cfg s msg k now tr h
  · intro cfg s msg msg2 k t t2 tr tr2 hm hw hg hfail
    have hok : (send_slack_alert cfg s msg k t tr).outcome
        ≠ DispatchOutcome.sentOk := by
      intro h
      rcases (send_sentOk_iff cfg s msg k t tr).mp h with ⟨_, _, _, htr⟩
      rcases hfail with h2 | ⟨c, hc, hne⟩
      · rw [h2] at htr; cases htr
      · rw [hc] at htr
        exact hne (by injection htr)
    have hstate := send_state_of_not_sentOk cfg s msg k t tr hok
    rw [hstate]
    exact (send_sentOutcome_iff cfg s msg2 k t2 tr2).mpr
      ⟨hm, hw, fun last hl => by rw [hg] at hl; cases hl⟩

/-- C3 witness: a failed delivery (HTTP 500) at instant 0 does not block
the attempt at instant 1, well within the 300 s cooldown. -/
theorem C3_cooldown_update_iff_success_witness :
    cfg0.maintenanceMode = false ∧ cfg0.webhookSet = true
    ∧ getLast initialState.last_alert_times AlertType.failover = none
    ∧ sentOutcome (send_slack_alert cfg0
        (send_slack_alert cfg0 initialState.last_alert_times "m"
          AlertType.failover 0 (TransportResult.ok 500)).state "m"
        AlertType.failover 1 (TransportResult.ok 500)).outcome = true :=
  ⟨rfl, rfl, rfl,
    C3_cooldown_update_iff_success.2.2 cfg0 initialState.last_alert_times "m" "m"
      AlertType.failover 0 1 (TransportResult.ok 500) (TransportResult.ok 500)
      rfl rfl rfl (Or.inr ⟨500, rfl, by decide⟩)⟩

/-- C8 counterexample: even a dispatch that actually delivered (transport
answered HTTP 200, outcome `sentOk`) returns Python `None`, not a boolean
sent/suppressed indicator. -/
theorem C8_counterexample_returns_none :
    (send_slack_alert cfg0 initialState.last_alert_times "m" AlertType.failover 0
        (TransportResult.ok 200)).outcome = DispatchOutcome.sentOk
    ∧ (send_slack_alert cfg0 initialState.last_alert_times "m" AlertType.failover 0
        (TransportResult.ok 200)).retVal = none := ⟨rfl, rfl⟩

/-- C8 amended: `send_slack_alert` returns `None` on every path (its return
value never indicates sent or suppressed), and every expected condition is
handled without an exception escaping: in particular a raising transport is
caught, yields a normal return, and leaves the cooldown state unchanged. -/
theorem C8_dispatch_returns_none_never_throws :
    (∀ (cfg : Config) (s : CooldownState) (msg : String) (k : AlertType)
        (now : ℚ) (tr : TransportResult),
      (send_slack_alert cfg s msg k now tr).retVal = none)
    ∧ (∀ (cfg : Config) (s : CooldownState) (msg : String) (k : AlertType)
        (now : ℚ),
      (send_slack_alert cfg s msg k now TransportResult.exc).state = s) := by
  refine ⟨send_retVal, ?_⟩
  intro cfg s msg k now
  have hok : (send_slack_alert cfg s msg k now TransportResult.exc).outcome
      ≠ DispatchOutcome.sentOk := by
    intro h
    rcases (send_sentOk_iff cfg s msg k now TransportResult.exc).mp h
      with ⟨_, _, _, htr⟩
    cases htr
  exact send_state_of_not_sentOk cfg s msg k now TransportResult.exc hok

/-! ## Claim theorems: sliding window and error rate -/

/-- C4: the deque-backed window is a strict ring buffer: its length never
exceeds the capacity, appending to a full window evicts exactly the oldest
element, and after `N + k` appends it holds exactly the last `N` appended
events in arrival order. -/
theorem C4_sliding_window_ring_buffer :
    (∀ (N : Nat) (es : List WinEntry), (appendAll N [] es).length ≤ N)
    ∧ (∀ (N : Nat) (w : List WinEntry) (e : WinEntry),
        w.length = N → 1 ≤ N → dequeAppend N w e = w.tail ++ [e])
    ∧ (∀ (N k : Nat) (es : List WinEntry), es.length = N + k →
        appendAll N [] es = es.drop k) := by
  refine ⟨?_, ?_, ?_⟩
  · intro N es
    rw [appendAll_eq_drop N es [] (by simp)]
    simp only [List.nil_append, List.length_drop, List.length_nil, Nat.zero_add]
    omega
  · intro N w e hw hN
    rw [dequeAppend_eq_drop]
    cases w with
    | nil => rw [← hw] at hN; simp at hN
    | cons a as =>
        have hidx : (a :: as).length + 1 - N = 1 := by
          rw [hw]; omega
        rw [hidx]
        simp
  · intro N k es hes
    rw [appendAll_eq_drop N es [] (by simp)]
    have hidx : ([] : List WinEntry).length + es.length - N = k := by
      simp [hes]
    rw [hidx, List.nil_append]

/-- C4 witness: capacity 2 — appending to the full window `[weOk, weErr]`
evicts `weOk`, and five appends leave exactly the last two. -/
theorem C4_sliding_window_ring_buffer_witness :
    ([weOk, weErr].length = 2 ∧ 1 ≤ 2
      ∧ dequeAppend 2 [weOk, weErr] weOk = [weErr, weOk])
    ∧ ([weOk, weErr, weOk, weErr, weOk].length = 2 + 3
      ∧ appendAll 2 [] [weOk, weErr, weOk, weErr, weOk] = [weErr, weOk]) := by
  constructor
  · refine ⟨rfl, by omega, ?_⟩
    have h := C4_sliding_window_ring_buffer.2.1 2 [weOk, weErr] weOk rfl (by omega)
    simpa using h
  · refine ⟨rfl, ?_⟩
    have h := C4_sliding_window_ring_buffer.2.2 2 3
      [weOk, weErr, weOk, weErr, weOk] rfl
    simpa using h

/-- C5: `calculate_error_rate` is `0` on the empty window, never divides by
zero, equals `100 * errors / length` on any non-empty window, and is
exactly `100` on an all-error window. -/
theorem C5_error_rate_formula :
    calculate_error_rate [] = 0
    ∧ (∀ w : List WinEntry, w ≠ [] →
        calculate_error_rate w =
          100 * ((w.filter fun r => r.is_error).length : ℚ) / (w.length : ℚ))
    ∧ (∀ w : List WinEntry, w ≠ [] → (∀ r ∈ w, r.is_error = true) →
        calculate_error_rate w = 100) := by
  refine ⟨rfl, ?_, ?_⟩
  · intro w hw
    have hlen : w.length ≠ 0 := by simpa [List.length_eq_zero] using hw
    simp only [calculate_error_rate, if_neg hlen]
    ring
  · intro w hw hall
    have hlen : w.length ≠ 0 := by simpa [List.length_eq_zero] using hw
    have hfilter : w.filter (fun r => r.is_error) = w :=
      List.filter_eq_self.mpr (fun a ha => by simpa using hall a ha)
    simp only [calculate_error_rate, if_neg hlen, hfilter]
    rw [div_self (by exact_mod_cast hlen), one_mul]

/-- C5 witness: a singleton all-error window has rate exactly 100, and a
half-error window of size two has rate `100 * 1 / 2`. -/
theorem C5_error_rate_formula_witness :
    ([weErr] ≠ ([] : List WinEntry) ∧ calculate_error_rate [weErr] = 100)
    ∧ ([weErr, weOk] ≠ ([] : List WinEntry)
      ∧ calculate_error_rate [weErr, weOk] =
          100 * (([weErr, weOk].filter fun r => r.is_error).length : ℚ)
            / (([weErr, weOk] : List WinEntry).length : ℚ)) := by
  constructor
  · exact ⟨by decide, C5_error_rate_formula.2.2 [weErr] (by decide)
      (by intro r hr; rcases List.mem_cons.mp hr with h | h
          · subst h; rfl
          · cases h)⟩
  · exact ⟨by decide, C5_error_rate_formula.2.1 [weErr, weOk] (by decide)⟩

/-! ## Claim theorems: event classifier and event loop -/

/-- C6: a record is discarded — the whole step is a no-op with no dispatch
attempts — exactly when its pool field is absent, empty, `-`, or `null`;
every retained record is appended to the window and updates the last-seen
pool; and the error flag is true exactly when the primary status, or some
comma-separated stripped entry of the upstream-status field, parses as an
integer in `[500, 600)`, a failed parse counting as non-error. -/
theorem C6_classifier_discard_and_error_flag :
    (∀ e : RawEntry, invalidPool (poolOf e) = true ↔
      (e.pool = none ∨ e.pool = some "" ∨ e.pool = some "-"
        ∨ e.pool = some "null"))
    ∧ (∀ (cfg : Config) (st : WatcherState) (e : RawEntry) (now : ℚ)
        (tr : TransportResult), invalidPool (poolOf e) = true →
      process_log_entry cfg st e now tr = { state := st, attempts := [] })
    ∧ (∀ (cfg : Config) (st : WatcherState) (e : RawEntry) (now : ℚ)
        (tr : TransportResult), invalidPool (poolOf e) = false →
      (process_log_entry cfg st e now tr).state.request_window =
        dequeAppend cfg.windowSize st.request_window (newWinEntry e)
      ∧ (process_log_entry cfg st e now tr).state.last_seen_pool
          = some (poolOf e))
    ∧ (∀ e : RawEntry, entryIsError e = true ↔
      ((∃ n : ℤ, pyInt? (statusOf e) = some n ∧ 500 ≤ n ∧ n < 600)
       ∨ (∃ us ∈ splitComma (upstreamStatusOf e),
            ∃ n : ℤ, pyInt? (pyStrip us) = some n ∧ 500 ≤ n ∧ n < 600)))
    ∧ (∀ s : String, pyInt? s = none → is_error_status s = false) := by
  refine ⟨?_, ?_, ?_, ?_, ?_⟩
  · intro e
    cases hp : e.pool with
    | none => simp [invalidPool, poolOf, hp]
    | some p =>
        simp only [invalidPool, poolOf, Option.getD_some, hp, Bool.or_eq_true,
          beq_iff_eq, Option.some.injEq]
        tauto
  · intro cfg st e now tr hp
    exact process_log_entry_invalid cfg st e now tr hp
  · intro cfg st e now tr hp
    rw [process_log_entry_valid cfg st e now tr hp]
    exact ⟨rfl, rfl⟩
  · intro e
    rw [entryIsError_iff]
    constructor
    · rintro (h | ⟨us, hus, h⟩)
      · exact Or.inl ((is_error_status_iff _).mp h)
      · exact Or.inr ⟨us, hus, (is_error_status_iff _).mp h⟩
    · rintro (h | ⟨us, hus, h⟩)
      · exact Or.inl ((is_error_status_iff _).mpr h)
      · exact Or.inr ⟨us, hus, (is_error_status_iff _).mpr h⟩
  · intro s h
    unfold is_error_status
    rw [h]

/-- C6 witness: the `-` pool sentinel makes the step a no-op; a record
whose primary status is `503` is classified as an error. -/
theorem C6_classifier_discard_and_error_flag_witness :
    invalidPool (poolOf entryDashPool) = true
    ∧ process_log_entry cfg0 initialState entryDashPool 0
        (TransportResult.ok 200) = { state := initialState, attempts := [] }
    ∧ entryIsError entry503 = true := by
  refine ⟨by decide, C6_classifier_discard_and_error_flag.2.1 cfg0 initialState
    entryDashPool 0 (TransportResult.ok 200) (by decide), ?_⟩
  exact (C6_classifier_discard_and_error_flag.2.2.2.1 entry503).mpr
    (Or.inl ⟨503, by decide, by decide, by decide⟩)

/-- C10: a record with a valid pool but no status field gets the default
status `0`: it is classified as an error only if some upstream-status
entry is a 5xx, and it is still appended to the window and still drives
pool-transition state. -/
theorem C10_missing_status_default :
    ∀ (cfg : Config) (st : WatcherState) (e : RawEntry) (now : ℚ)
      (tr : TransportResult), e.status = none →
    statusOf e = "0"
    ∧ (entryIsError e = true ↔
        ∃ us ∈ splitComma (upstreamStatusOf e),
          ∃ n : ℤ, pyInt? (pyStrip us) = some n ∧ 500 ≤ n ∧ n < 600)
    ∧ (invalidPool (poolOf e) = false →
        (process_log_entry cfg st e now tr).state.request_window =
          dequeAppend cfg.windowSize st.request_window (newWinEntry e)
        ∧ (process_log_entry cfg st e now tr).state.last_seen_pool
            = some (poolOf e)) := by
  intro cfg st e now tr hs
  have hstat : statusOf e = "0" := by simp [statusOf, hs]
  refine ⟨hstat, ?_, ?_⟩
  · rw [entryIsError_iff, hstat]
    constructor
    · rintro (h | ⟨us, hus, h⟩)
      · exact absurd h (by decide)
      · exact ⟨us, hus, (is_error_status_iff _).mp h⟩
    · rintro ⟨us, hus, h⟩
      exact Or.inr ⟨us, hus, (is_error_status_iff _).mpr h⟩
  · intro hp
    rw [process_log_entry_valid cfg st e now tr hp]
    exact ⟨rfl, rfl⟩

/-- C10 witness: `entryUpstream` has no status field, yet is an error via
its upstream chain `200, 502` and is retained. -/
theorem C10_missing_status_default_witness :
    entryUpstream.status = none
    ∧ statusOf entryUpstream = "0"
    ∧ entryIsError entryUpstream = true
    ∧ invalidPool (poolOf entryUpstream) = false
    ∧ (process_log_entry cfg0 initialState entryUpstream 0
        (TransportResult.ok 200)).state.last_seen_pool = some "blue" := by
  have h := C10_missing_status_default cfg0 initialState entryUpstream 0
    (TransportResult.ok 200) rfl
  refine ⟨rfl, h.1, ?_, by decide, ?_⟩
  · exact h.2.1.mpr ⟨" 502", by decide, 502, by decide, by decide, by decide⟩
  · exact (h.2.2 (by decide)).2

/-- C9: with maintenance mode enabled every dispatch of every kind is
suppressed before the transport is consulted, while the detector state is
unaffected: a retained event still updates the last-seen pool and the
window, every attempt of the step reports maintenance suppression, and the
`blue, green` scenario delivers nothing yet ends with pool `green` and both
events in the window. -/
theorem C9_maintenance_mode_frame :
    (∀ (cfg : Config) (s : CooldownState) (msg : String) (k : AlertType)
        (now : ℚ) (tr : TransportResult), cfg.maintenanceMode = true →
      send_slack_alert cfg s msg k now tr =
        { state := s, outcome := DispatchOutcome.suppressedMaintenance,
          retVal := none })
    ∧ (∀ (cfg : Config) (st : WatcherState) (e : RawEntry) (now : ℚ)
        (tr : TransportResult), cfg.maintenanceMode = true →
      invalidPool (poolOf e) = false →
      (process_log_entry cfg st e now tr).state.last_seen_pool
          = some (poolOf e)
      ∧ (process_log_entry cfg st e now tr).state.request_window =
          dequeAppend cfg.windowSize st.request_window (newWinEntry e)
      ∧ (∀ a ∈ (process_log_entry cfg st e now tr).attempts,
          a.2 = DispatchOutcome.suppressedMaintenance)
      ∧ deliveredCount (process_log_entry cfg st e now tr).attempts = 0)
    ∧ (deliveredCount (processAll cfgMaint initialState
          [(entryPool "blue", 0, TransportResult.ok 200),
           (entryPool "green", 1, TransportResult.ok 200)]).2 = 0
      ∧ (processAll cfgMaint initialState
          [(entryPool "blue", 0, TransportResult.ok 200),
           (entryPool "green", 1, TransportResult.ok 200)]).1.last_seen_pool
          = some "green"
      ∧ ((processAll cfgMaint initialState
          [(entryPool "blue", 0, TransportResult.ok 200),
           (entryPool "green", 1, TransportResult.ok 200)]).1.request_window.map
            (fun r => r.pool)) = ["blue", "green"]) := by
  refine ⟨?_, ?_, ?_⟩
  · intro cfg s msg k now tr hm
    exact send_maint cfg s msg k now tr hm
  · intro cfg st e now tr hm hp
    have hatt : ∀ a ∈ (process_log_entry cfg st e now tr).attempts,
        a.2 = DispatchOutcome.suppressedMaintenance := by
      rw [process_log_entry_valid cfg st e now tr hp]
      intro a ha
      rcases List.mem_append.mp ha with ha | ha
      · rcases failoverDetection_cases cfg st.last_seen_pool (poolOf e)
          st.last_alert_times now tr with h | h | h <;>
          rw [h] at ha <;>
          [skip;
           rw [send_maint cfg st.last_alert_times _ AlertType.failover now tr hm] at ha;
           rw [send_maint cfg st.last_alert_times _ AlertType.recovery now tr hm] at ha] <;>
          simp at ha
        · rw [ha]
        · rw [ha]
      · rw [errorRateDetection_spec] at ha
        revert ha
        split
        · rw [send_maint cfg _ _ AlertType.error_rate now tr hm]
          intro ha
          simp at ha
          rw [ha]
        · intro ha
          simp at ha
    refine ⟨?_, ?_, hatt, deliveredCount_eq_zero _ hatt⟩
    · rw [process_log_entry_valid cfg st e now tr hp]
    · rw [process_log_entry_valid cfg st e now tr hp]
  · refine ⟨by decide, by decide, by decide⟩

/-- C9 witness: a single `blue` event under maintenance updates the pool
state while delivering nothing. -/
theorem C9_maintenance_mode_frame_witness :
    cfgMaint.maintenanceMode = true
    ∧ invalidPool (poolOf (entryPool "blue")) = false
    ∧ (process_log_entry cfgMaint initialState (entryPool "blue") 0
        (TransportResult.ok 200)).state.last_seen_pool = some "blue"
    ∧ deliveredCount (process_log_entry cfgMaint initialState
        (entryPool "blue") 0 (TransportResult.ok 200)).attempts = 0 := by
  have h := C9_maintenance_mode_frame.2.1 cfgMaint initialState
    (entryPool "blue") 0 (TransportResult.ok 200) rfl (by decide)
  exact ⟨rfl, by decide, h.1, h.2.2.2⟩

theorem process_attempts (cfg : Config) (st : WatcherState) (e : RawEntry)
    (now : ℚ) (tr : TransportResult) (hp : invalidPool (poolOf e) = false) :
    (process_log_entry cfg st e now tr).attempts =
      (failoverDetection cfg st.last_seen_pool (poolOf e)
        st.last_alert_times now tr).2
      ++ (errorRateDetection cfg
            (dequeAppend cfg.windowSize st.request_window (newWinEntry e))
            (failoverDetection cfg st.last_seen_pool (poolOf e)
              st.last_alert_times now tr).1 now tr).2 := by
  rw [process_log_entry_valid cfg st e now tr hp]

theorem mem_attemptedKinds_append (k : AlertType)
    (l1 l2 : List (AlertType × DispatchOutcome)) :
    k ∈ attemptedKinds (l1 ++ l2) ↔
      (k ∈ attemptedKinds l1 ∨ k ∈ attemptedKinds l2) := by
  simp [attemptedKinds]

theorem mem_errorRate_detection (cfg : Config) (window : List WinEntry)
    (cd : CooldownState) (now : ℚ) (tr : TransportResult) :
    AlertType.error_rate ∈
        attemptedKinds (errorRateDetection cfg window cd now tr).2 ↔
      (cfg.windowSize ≤ window.length
       ∧ cfg.errorRateThreshold < calculate_error_rate window) := by
  rw [errorRateDetection_spec]
  by_cases h : cfg.windowSize ≤ window.length
      ∧ cfg.errorRateThreshold < calculate_error_rate window
  · simp [h, attemptedKinds]
  · simp [h, attemptedKinds]

/-- C1: the pool-transition detector is a state machine over the last-seen
pool: a first valid pool moves the state from unobserved to that pool with
no signal; an unchanged pool gives no signal; a changed pool gives exactly
one failover signal when the change is expected-primary to expected-backup,
exactly one recovery signal for the reverse change, and no signal for any
other pair; the last-seen pool is always updated afterwards; and the
sequence `blue, green, blue` yields one failover then one recovery. -/
theorem C1_pool_transition_state_machine :
    (∀ (cfg : Config) (st : WatcherState) (e : RawEntry) (now : ℚ)
        (tr : TransportResult), invalidPool (poolOf e) = false →
      (process_log_entry cfg st e now tr).state.last_seen_pool
          = some (poolOf e)
      ∧ (st.last_seen_pool = none →
          poolSignals (process_log_entry cfg st e now tr).attempts = [])
      ∧ (st.last_seen_pool = some (poolOf e) →
          poolSignals (process_log_entry cfg st e now tr).attempts = [])
      ∧ (∀ prev, st.last_seen_pool = some prev → prev ≠ "" →
          prev ≠ poolOf e →
          poolSignals (process_log_entry cfg st e now tr).attempts =
            (if prev = EXPECTED_PRIMARY_POOL
                ∧ poolOf e = EXPECTED_BACKUP_POOL
             then [AlertType.failover]
             else if prev = EXPECTED_BACKUP_POOL
                ∧ poolOf e = EXPECTED_PRIMARY_POOL
             then [AlertType.recovery]
             else [])))
    ∧ (EXPECTED_PRIMARY_POOL = "blue" ∧ EXPECTED_BACKUP_POOL = "green")
    ∧ poolSignals (processAll cfg0 initialState
        [(entryPool "blue", 0, TransportResult.ok 200),
         (entryPool "green", 1, TransportResult.ok 200),
         (entryPool "blue", 2, TransportResult.ok 200)]).2
      = [AlertType.failover, AlertType.recovery] := by
  refine ⟨?_, ⟨rfl, rfl⟩, by decide⟩
  intro cfg st e now tr hp
  have hat := process_attempts cfg st e now tr hp
  refine ⟨by rw [process_log_entry_valid cfg st e now tr hp], ?_, ?_, ?_⟩
  · intro hnone
    rw [hat, poolSignals_append, poolSignals_errorRate, hnone,
      failoverDetection_none]
    rfl
  · intro hsame
    rw [hat, poolSignals_append, poolSignals_errorRate, hsame,
      failoverDetection_same]
    rfl
  · intro prev hprev hne hdiff
    rw [hat, poolSignals_append, poolSignals_errorRate, hprev,
      failoverDetection_change cfg prev (poolOf e) st.last_alert_times now tr
        hne hdiff]
    by_cases hf : prev = EXPECTED_PRIMARY_POOL
        ∧ poolOf e = EXPECTED_BACKUP_POOL
    · rw [if_pos hf, if_pos hf]
      rfl
    · rw [if_neg hf, if_neg hf]
      by_cases hr : prev = EXPECTED_BACKUP_POOL
          ∧ poolOf e = EXPECTED_PRIMARY_POOL
      · rw [if_pos hr, if_pos hr]
        rfl
      · rw [if_neg hr, if_neg hr]
        rfl

/-- C1 witness: from last-seen pool `blue`, a `green` event signals exactly
one failover. -/
theorem C1_pool_transition_state_machine_witness :
    invalidPool (poolOf (entryPool "green")) = false
    ∧ stBlue.last_seen_pool = some "blue" ∧ "blue" ≠ ""
    ∧ "blue" ≠ poolOf (entryPool "green")
    ∧ poolSignals (process_log_entry cfg0 stBlue (entryPool "green") 0
        (TransportResult.ok 200)).attempts = [AlertType.failover] := by
  have h := (C1_pool_transition_state_machine.1 cfg0 stBlue (entryPool "green")
    0 (TransportResult.ok 200) (by decide)).2.2.2 "blue" rfl (by decide)
    (by decide)
  refine ⟨by decide, rfl, by decide, by decide, ?_⟩
  rw [h]
  simp [EXPECTED_PRIMARY_POOL, EXPECTED_BACKUP_POOL, poolOf, entryPool]

/-- C7: for a retained event, an `error_rate` dispatch is attempted exactly
when the post-append window has reached the configured capacity and the
computed rate strictly exceeds the threshold; below capacity no
`error_rate` dispatch ever happens. -/
theorem C7_error_rate_gate :
    ∀ (cfg : Config) (st : WatcherState) (e : RawEntry) (now : ℚ)
      (tr : TransportResult), invalidPool (poolOf e) = false →
    (AlertType.error_rate ∈
        attemptedKinds (process_log_entry cfg st e now tr).attempts ↔
      ((process_log_entry cfg st e now tr).state.request_window.length
          = cfg.windowSize
        ∧ cfg.errorRateThreshold <
            calculate_error_rate
              (process_log_entry cfg st e now tr).state.request_window))
    ∧ ((process_log_entry cfg st e now tr).state.request_window.length
          < cfg.windowSize →
        AlertType.error_rate ∉
          attemptedKinds (process_log_entry cfg st e now tr).attempts) := by
  intro cfg st e now tr hp
  have hwin : (process_log_entry cfg st e now tr).state.request_window =
      dequeAppend cfg.windowSize st.request_window (newWinEntry e) := by
    rw [process_log_entry_valid cfg st e now tr hp]
  have hat := process_attempts cfg st e now tr hp
  have hlen :
      (dequeAppend cfg.windowSize st.request_window (newWinEntry e)).length
        ≤ cfg.windowSize := by
    rw [dequeAppend_length]; omega
  have hiff : AlertType.error_rate ∈
      attemptedKinds (process_log_entry cfg st e now tr).attempts ↔
      ((process_log_entry cfg st e now tr).state.request_window.length
          = cfg.windowSize
        ∧ cfg.errorRateThreshold <
            calculate_error_rate
              (process_log_entry cfg st e now tr).state.request_window) := by
    rw [hat, hwin, mem_attemptedKinds_append]
    constructor
    · rintro (hmem | hmem)
      · exact absurd hmem (no_errorRate_in_failover cfg st.last_seen_pool
          (poolOf e) st.last_alert_times now tr)
      · rcases (mem_errorRate_detection cfg _ _ now tr).mp hmem with ⟨h1, h2⟩
        exact ⟨by omega, h2⟩
    · rintro ⟨h1, h2⟩
      exact Or.inr ((mem_errorRate_detection cfg _ _ now tr).mpr
        ⟨by omega, h2⟩)
  refine ⟨hiff, fun hlt hmem => ?_⟩
  rcases hiff.mp hmem with ⟨h1, _⟩
  omega

/-- C7 witness: with capacity 1, a single 503 event fills the window and
triggers an `error_rate` attempt (rate 100 above threshold 2). -/
theorem C7_error_rate_gate_witness :
    invalidPool (poolOf entry503) = false
    ∧ (process_log_entry cfgSmall initialState entry503 0
        (TransportResult.ok 200)).state.request_window.length
        = cfgSmall.windowSize
    ∧ cfgSmall.errorRateThreshold < calculate_error_rate
        (process_log_entry cfgSmall initialState entry503 0
          (TransportResult.ok 200)).state.request_window
    ∧ AlertType.error_rate ∈ attemptedKinds (process_log_entry cfgSmall
        initialState entry503 0 (TransportResult.ok 200)).attempts := by
  have hwin : (process_log_entry cfgSmall initialState entry503 0
      (TransportResult.ok 200)).state.request_window =
      [{ pool := "blue", status := "503", is_error := true,
         timestamp := "" }] := by decide
  have hrate : cfgSmall.errorRateThreshold < calculate_error_rate
      [{ pool := "blue", status := "503", is_error := true,
         timestamp := "" }] := by
    norm_num [calculate_error_rate, cfgSmall, cfg0, List.filter]
  refine ⟨by decide, by rw [hwin]; rfl, by rw [hwin]; exact hrate, ?_⟩
  exact ((C7_error_rate_gate cfgSmall initialState entry503 0
    (TransportResult.ok 200) (by decide)).1).mpr
    ⟨by rw [hwin]; rfl, by rw [hwin]; exact hrate⟩

end Watcher
